import Mathlib

/-!
A shallow embedding of the core of the student-result system
(`database.py`, class `StudentDatabase`, and the cohort-performance loop of
`app2.py`), with theorems checking the specification's claims against it.

Modelling choices, all taken from how the code actually executes:

* The SQLite database is a `Store` of three lists (students, subjects,
  results), in insertion order (rowid order).
* The schema declares `FOREIGN KEY ... ON DELETE CASCADE` on `results`,
  but every connection is opened by `sqlite3.connect` without ever issuing
  `PRAGMA foreign_keys = ON`; SQLite keeps foreign-key enforcement OFF by
  default, so at runtime the foreign-key clauses are inert: deletes do not
  cascade and inserts are not checked against the parent tables.  The
  operations below model that runtime behaviour.  `UNIQUE` and
  `PRIMARY KEY` constraints, by contrast, are always enforced by SQLite
  regardless of that pragma, and are modelled.
* Python `int` marks and max_marks are `Int`; float percentages are
  modelled as exact rationals `ℚ` (no claim exercises a value where binary
  floating point and exact arithmetic give different grade buckets).
* Python `round(x, 1)` is modelled by `round1`; no claim exercises an
  exact half-way tie, where Python rounds to even and `round1` rounds up.
* `get_student_results` returns a Python dict built from rows that are
  unique per (student_id, subject_name) (the `UNIQUE` constraint holds
  regardless of the pragma), so it is modelled as the association list of
  those rows; theorems that depend on key-uniqueness carry it as the
  `at_most_one_per_pair` hypothesis, which is proved invariant.
-/

/-- A row of the `students` table (`id TEXT PRIMARY KEY, name, class`). -/
structure Student where
  id : String
  name : String
  class_name : String
deriving DecidableEq, Repr

/-- A row of the `subjects` table (`name TEXT UNIQUE, max_marks INTEGER`). -/
structure Subject where
  name : String
  max_marks : Int
deriving DecidableEq, Repr

/-- A row of the `results` table
(`student_id TEXT, subject_name TEXT, marks INTEGER,
UNIQUE(student_id, subject_name)`). -/
structure ResultRow where
  student_id : String
  subject_name : String
  marks : Int
deriving DecidableEq, Repr

/-- The database state: the three tables, rows in rowid (insertion) order. -/
structure Store where
  students : List Student
  subjects : List Subject
  results : List ResultRow
deriving DecidableEq, Repr

/-- A freshly created database (before `init_sample_data`). -/
def empty_store : Store := ⟨[], [], []⟩

/-- `add_student`: `INSERT INTO students` succeeds unless the PRIMARY KEY
on `id` is violated, in which case `sqlite3.IntegrityError` is caught and
`False` is returned. -/
def add_student (s : Store) (student_id name class_name : String) :
    Store × Bool :=
  if s.students.any (fun st => st.id == student_id) then
    (s, false)
  else
    ({ s with students := s.students ++ [⟨student_id, name, class_name⟩] }, true)

/-- Ordering of students used by `ORDER BY name`. -/
def studentLe (a b : Student) : Prop := a.name ≤ b.name

instance : DecidableRel studentLe := fun a b =>
  inferInstanceAs (Decidable (a.name ≤ b.name))

instance : IsTotal Student studentLe := ⟨fun a b => le_total a.name b.name⟩

instance : IsTrans Student studentLe :=
  ⟨fun _ _ _ h h2 => le_trans h h2⟩

/-- `get_all_students`: `SELECT id, name, class FROM students ORDER BY name`. -/
def get_all_students (s : Store) : List Student :=
  List.insertionSort studentLe s.students

/-- `get_student_count`: `SELECT COUNT(*) FROM students`. -/
def get_student_count (s : Store) : Nat := s.students.length

/-- `delete_student`: `DELETE FROM students WHERE id = ?`.  With foreign-key
enforcement off (no `PRAGMA foreign_keys = ON` is ever issued) the declared
`ON DELETE CASCADE` does not run, so `results` is untouched.  The statement
cannot raise, so the function returns `True` for every id. -/
def delete_student (s : Store) (student_id : String) : Store × Bool :=
  ({ s with students := s.students.filter (fun st => !(st.id == student_id)) },
   true)

/-- `clear_all_students`: `DELETE FROM students; DELETE FROM results`. -/
def clear_all_students (s : Store) : Store :=
  { s with students := [], results := [] }

/-- `add_subject`: `INSERT INTO subjects (name, max_marks)` succeeds unless
the UNIQUE constraint on `name` is violated.  No validation of `max_marks`
happens anywhere in this function or in the schema. -/
def add_subject (s : Store) (name : String) (max_marks : Int) :
    Store × Bool :=
  if s.subjects.any (fun sub => sub.name == name) then
    (s, false)
  else
    ({ s with subjects := s.subjects ++ [⟨name, max_marks⟩] }, true)

/-- Ordering of subjects used by `ORDER BY name`. -/
def subjectLe (a b : Subject) : Prop := a.name ≤ b.name

instance : DecidableRel subjectLe := fun a b =>
  inferInstanceAs (Decidable (a.name ≤ b.name))

instance : IsTotal Subject subjectLe := ⟨fun a b => le_total a.name b.name⟩

instance : IsTrans Subject subjectLe :=
  ⟨fun _ _ _ h h2 => le_trans h h2⟩

/-- `get_all_subjects`: `SELECT name, max_marks FROM subjects ORDER BY name`. -/
def get_all_subjects (s : Store) : List Subject :=
  List.insertionSort subjectLe s.subjects

/-- `delete_subject`: `DELETE FROM subjects WHERE name = ?`; as with
`delete_student`, the cascade clause is inert at runtime, so `results`
keeps any rows that referenced the subject. -/
def delete_subject (s : Store) (name : String) : Store × Bool :=
  ({ s with subjects := s.subjects.filter (fun sub => !(sub.name == name)) },
   true)

/-- `clear_all_subjects`: `DELETE FROM subjects; DELETE FROM results`. -/
def clear_all_subjects (s : Store) : Store :=
  { s with subjects := [], results := [] }

/-- `save_marks`: `INSERT OR REPLACE INTO results (student_id, subject_name,
marks)`.  `OR REPLACE` deletes any row conflicting on
`UNIQUE(student_id, subject_name)` and inserts the new row; with foreign-key
enforcement off nothing checks that the student or subject exists, so the
insert always succeeds and the function returns `True`. -/
def save_marks (s : Store) (student_id subject_name : String) (marks : Int) :
    Store × Bool :=
  ({ s with
      results :=
        s.results.filter
          (fun r => !(r.student_id == student_id && r.subject_name == subject_name))
        ++ [⟨student_id, subject_name, marks⟩] },
   true)

/-- `get_student_results`: `SELECT subject_name, marks FROM results WHERE
student_id = ?`, returned as a dict; modelled as the association list of
the selected rows (unique keys by the `UNIQUE` constraint). -/
def get_student_results (s : Store) (student_id : String) :
    List (String × Int) :=
  (s.results.filter (fun r => r.student_id == student_id)).map
    (fun r => (r.subject_name, r.marks))

/-- `round(x, 1)` on the exact rational value. -/
def round1 (q : ℚ) : ℚ := (round (q * 10) : ℚ) / 10

/-- `get_grade`: the five-bucket grade ladder, evaluated top-down. -/
def get_grade (percentage : ℚ) : Char :=
  if percentage ≥ 90 then 'A'
  else if percentage ≥ 80 then 'B'
  else if percentage ≥ 70 then 'C'
  else if percentage ≥ 60 then 'D'
  else 'F'

/-- `SELECT COUNT(*) FROM results` restricted to one student: the rows the
student owns, in rowid order. -/
def student_rows (s : Store) (student_id : String) : List ResultRow :=
  s.results.filter (fun r => r.student_id == student_id)

/-- The raw marks of one student, the values of `get_student_results`. -/
def student_marks (s : Store) (student_id : String) : List Int :=
  (student_rows s student_id).map (fun r => r.marks)

/-- First subject with a given name, as the SQL join `ON r.subject_name =
s.name` resolves it (unique by the UNIQUE constraint on `subjects.name`). -/
def lookup_subject (s : Store) (n : String) : Option Subject :=
  s.subjects.find? (fun sub => sub.name == n)

/-- `dashboardStats` output. -/
structure DashboardStats where
  total_students : Nat
  total_subjects : Nat
  avg_marks : ℚ
  pass_rate : ℚ
deriving DecidableEq, Repr

/-- `get_dashboard_stats`: `AVG(CAST(marks AS FLOAT))` and
`COUNT(CASE WHEN marks >= 60 THEN 1 END) * 100.0 / COUNT(*)` over `results`
(`NULL` when no rows: `AVG` of nothing and division by a zero count), then
Python `round(x, 1) if x else 0`, where the truthiness test sends both
`None` and an exact `0.0` to `0`. -/
def get_dashboard_stats (s : Store) : DashboardStats :=
  let n := s.results.length
  let avg_raw : Option ℚ :=
    if n = 0 then none
    else some (((s.results.map (fun r => r.marks)).sum : ℚ) / (n : ℚ))
  let pass_raw : Option ℚ :=
    if n = 0 then none
    else some (((s.results.countP (fun r => decide (60 ≤ r.marks))) : ℚ) * 100 / (n : ℚ))
  { total_students := s.students.length
    total_subjects := s.subjects.length
    avg_marks :=
      match avg_raw with
      | none => 0
      | some v => if v = 0 then 0 else round1 v
    pass_rate :=
      match pass_raw with
      | none => 0
      | some v => if v = 0 then 0 else round1 v }

/-- One row of the per-subject table in `generate_student_report`. -/
structure ReportEntry where
  subject : String
  marks : Int
  max_marks : Int
  percentage : ℚ
  grade : Char
deriving DecidableEq, Repr

/-- The `summary` part of a student report. -/
structure ReportSummary where
  total_marks : Int
  total_max_marks : Int
  overall_percentage : ℚ
  overall_grade : Char
deriving DecidableEq, Repr

/-- A full student report. -/
structure Report where
  student : Student
  results : List ReportEntry
  summary : ReportSummary
deriving DecidableEq, Repr

/-- Ordering of result rows used by `ORDER BY r.subject_name`. -/
def resultLe (a b : ResultRow) : Prop := a.subject_name ≤ b.subject_name

instance : DecidableRel resultLe := fun a b =>
  inferInstanceAs (Decidable (a.subject_name ≤ b.subject_name))

instance : IsTotal ResultRow resultLe :=
  ⟨fun a b => le_total a.subject_name b.subject_name⟩

instance : IsTrans ResultRow resultLe :=
  ⟨fun _ _ _ h h2 => le_trans h h2⟩

/-- The rows of `SELECT r.subject_name, r.marks, s.max_marks FROM results r
JOIN subjects s ON r.subject_name = s.name WHERE r.student_id = ? ORDER BY
r.subject_name`: the student's rows sorted by subject name, inner-joined to
their subject (rows whose subject no longer exists are dropped by the
join). -/
def report_rows (s : Store) (student_id : String) :
    List (ResultRow × Subject) :=
  (List.insertionSort resultLe (student_rows s student_id)).filterMap
    (fun r => (lookup_subject s r.subject_name).map (fun sub => (r, sub)))

/-- The loop body of `generate_student_report`: percentage and grade are
computed from the unrounded float, the displayed percentage is rounded. -/
def mk_entry (r : ResultRow) (sub : Subject) : ReportEntry :=
  let percentage : ℚ := ((r.marks : ℚ) / (sub.max_marks : ℚ)) * 100
  { subject := r.subject_name
    marks := r.marks
    max_marks := sub.max_marks
    percentage := round1 percentage
    grade := get_grade percentage }

/-- `generate_student_report`: `None` when the id matches no student,
otherwise the per-subject entries from `report_rows` plus the summary with
`overall_percentage = total_marks / total_max_marks * 100` guarded to `0`
when `total_max_marks` is not positive. -/
def generate_student_report (s : Store) (student_id : String) :
    Option Report :=
  match s.students.find? (fun st => st.id == student_id) with
  | none => none
  | some st =>
    let rows := report_rows s student_id
    let total_marks : Int := (rows.map (fun p => p.1.marks)).sum
    let total_max_marks : Int := (rows.map (fun p => p.2.max_marks)).sum
    let overall : ℚ :=
      if total_max_marks > 0 then
        ((total_marks : ℚ) / (total_max_marks : ℚ)) * 100
      else 0
    some
      { student := st
        results := rows.map (fun p => mk_entry p.1 p.2)
        summary :=
          { total_marks := total_marks
            total_max_marks := total_max_marks
            overall_percentage := round1 overall
            overall_grade := get_grade overall } }

/-- One row of the all-students performance table built in `app2.py`. -/
structure PerfEntry where
  name : String
  id : String
  class_name : String
  total_marks : Int
  total_max_marks : Int
  percentage : ℚ
  grade : Char
  status : String
deriving DecidableEq, Repr

/-- The `next((s for s in subjects if s['name'] == subject_name), None)`
lookup of `app2.py`, over `db.get_all_subjects()`; a missing subject
contributes `0` to the max-marks total (the `if subject_info:` guard). -/
def subject_max (s : Store) (n : String) : Int :=
  match (get_all_subjects s).find? (fun sub => sub.name == n) with
  | some sub => sub.max_marks
  | none => 0

/-- The body of the `student_performance` loop of `app2.py`: total the
student's marks, total the max marks of the subjects found by name, and
derive percentage (0-guarded against an empty or zero denominator), grade
and PASS/FAIL. -/
def perf_entry_of (s : Store) (st : Student) : PerfEntry :=
  let rs := get_student_results s st.id
  let total_marks : Int := (rs.map (fun p => p.2)).sum
  let total_max_marks : Int := (rs.map (fun p => subject_max s p.1)).sum
  let percentage : ℚ :=
    if total_max_marks > 0 then
      ((total_marks : ℚ) / (total_max_marks : ℚ)) * 100
    else 0
  { name := st.name
    id := st.id
    class_name := st.class_name
    total_marks := total_marks
    total_max_marks := total_max_marks
    percentage := percentage
    grade := get_grade percentage
    status := if percentage ≥ 60 then "PASS" else "FAIL" }

/-- The `student_performance` loop of `app2.py` (lines 458-484): for each
student of `get_all_students`, skip them when `get_student_results` is
empty (dict truthiness), otherwise append their performance entry. -/
def student_performance (s : Store) : List PerfEntry :=
  (get_all_students s).filterMap (fun st =>
    if (get_student_results s st.id).isEmpty then none
    else some (perf_entry_of s st))

/-- The public mutating operations of the storage layer. -/
inductive Op where
  | addStudent (id name class_name : String)
  | deleteStudent (id : String)
  | clearStudents
  | addSubject (name : String) (max_marks : Int)
  | deleteSubject (name : String)
  | clearSubjects
  | upsertMark (student_id subject_name : String) (marks : Int)
deriving DecidableEq, Repr

/-- State transition of one mutating operation (the returned flag, when the
operation has one, is discarded). -/
def applyOp (s : Store) : Op → Store
  | Op.addStudent id name class_name => (add_student s id name class_name).1
  | Op.deleteStudent id => (delete_student s id).1
  | Op.clearStudents => clear_all_students s
  | Op.addSubject name max_marks => (add_subject s name max_marks).1
  | Op.deleteSubject name => (delete_subject s name).1
  | Op.clearSubjects => clear_all_subjects s
  | Op.upsertMark student_id subject_name marks =>
      (save_marks s student_id subject_name marks).1

/-- Run a sequence of mutating operations. -/
def run (s : Store) (ops : List Op) : Store := ops.foldl applyOp s

/-- The `init_sample_data` inserts performed on a fresh database. -/
def sample_ops : List Op :=
  [Op.addSubject "Mathematics" 100, Op.addSubject "English" 100,
   Op.addSubject "Science" 100, Op.addSubject "History" 100,
   Op.addStudent "S001" "John Doe" "10th Grade",
   Op.addStudent "S002" "Jane Smith" "10th Grade",
   Op.addStudent "S003" "Mike Johnson" "10th Grade"]

/-- The UNIQUE(student_id, subject_name) constraint as a store predicate. -/
def at_most_one_per_pair (s : Store) : Prop :=
  ∀ sid subj : String,
    (s.results.filter
      (fun r => r.student_id == sid && r.subject_name == subj)).length ≤ 1

/-! ## Helper lemmas -/

theorem round1_zero : round1 0 = 0 := by
  simp [round1]

theorem get_grade_of_ge_90 {p : ℚ} (h : 90 ≤ p) : get_grade p = 'A' := by
  unfold get_grade
  rw [if_pos h]

theorem get_grade_of_lt_90 {p : ℚ} (h : 80 ≤ p) (h2 : p < 90) :
    get_grade p = 'B' := by
  unfold get_grade
  rw [if_neg (not_le.mpr h2), if_pos h]

theorem get_grade_of_lt_80 {p : ℚ} (h : 70 ≤ p) (h2 : p < 80) :
    get_grade p = 'C' := by
  unfold get_grade
  rw [if_neg (not_le.mpr (by linarith)), if_neg (not_le.mpr h2), if_pos h]

theorem get_grade_of_lt_70 {p : ℚ} (h : 60 ≤ p) (h2 : p < 70) :
    get_grade p = 'D' := by
  unfold get_grade
  rw [if_neg (not_le.mpr (by linarith)), if_neg (not_le.mpr (by linarith)),
    if_neg (not_le.mpr h2), if_pos h]

theorem get_grade_of_lt_60 {p : ℚ} (h : p < 60) : get_grade p = 'F' := by
  unfold get_grade
  rw [if_neg (not_le.mpr (by linarith)), if_neg (not_le.mpr (by linarith)),
    if_neg (not_le.mpr (by linarith)), if_neg (not_le.mpr h)]

/-! ## Claim theorems -/

/-- C3: the grade ladder maps `p ≥ 90` to A, `80 ≤ p < 90` to B,
`70 ≤ p < 80` to C, `60 ≤ p < 70` to D and `p < 60` to F, thresholds being
inclusive lower bounds evaluated top-down, and the boundary table
grade(89.9)=B, grade(90)=A, grade(59.9)=F, grade(60)=D, grade(100)=A,
grade(0)=F holds. -/
theorem C3_grade_thresholds :
    (∀ p : ℚ, 90 ≤ p → get_grade p = 'A') ∧
    (∀ p : ℚ, 80 ≤ p → p < 90 → get_grade p = 'B') ∧
    (∀ p : ℚ, 70 ≤ p → p < 80 → get_grade p = 'C') ∧
    (∀ p : ℚ, 60 ≤ p → p < 70 → get_grade p = 'D') ∧
    (∀ p : ℚ, p < 60 → get_grade p = 'F') ∧
    get_grade (899/10) = 'B' ∧ get_grade 90 = 'A' ∧
    get_grade (599/10) = 'F' ∧ get_grade 60 = 'D' ∧
    get_grade 100 = 'A' ∧ get_grade 0 = 'F' := by
  refine ⟨fun p h => get_grade_of_ge_90 h,
    fun p h h2 => get_grade_of_lt_90 h h2,
    fun p h h2 => get_grade_of_lt_80 h h2,
    fun p h h2 => get_grade_of_lt_70 h h2,
    fun p h => get_grade_of_lt_60 h,
    get_grade_of_lt_90 (by norm_num) (by norm_num),
    get_grade_of_ge_90 (by norm_num),
    get_grade_of_lt_60 (by norm_num),
    get_grade_of_lt_70 (by norm_num) (by norm_num),
    get_grade_of_ge_90 (by norm_num),
    get_grade_of_lt_60 (by norm_num)⟩

/-- Witness for C3 at the concrete percentage 95. -/
theorem C3_grade_thresholds_witness : get_grade 95 = 'A' :=
  C3_grade_thresholds.1 95 (by norm_num)

/-- C10: the grade function is total, returning one of the five letters for
every rational input, with A above 100 and F below 0; and the storage layer
accepts any marks value (so out-of-range percentages can arise). -/
theorem C10_grade_total :
    (∀ p : ℚ, 100 < p → get_grade p = 'A') ∧
    (∀ p : ℚ, p < 0 → get_grade p = 'F') ∧
    (∀ p : ℚ, get_grade p = 'A' ∨ get_grade p = 'B' ∨ get_grade p = 'C' ∨
      get_grade p = 'D' ∨ get_grade p = 'F') ∧
    (∀ (s : Store) (sid subj : String) (m : Int),
      (save_marks s sid subj m).2 = true) := by
  refine ⟨fun p h => get_grade_of_ge_90 (by linarith),
    fun p h => get_grade_of_lt_60 (by linarith), fun p => ?_,
    fun s sid subj m => rfl⟩
  unfold get_grade
  split_ifs <;> tauto

/-- Witness for C10 at the concrete percentages 101 and -1. -/
theorem C10_grade_total_witness :
    get_grade 101 = 'A' ∧ get_grade (-1) = 'F' :=
  ⟨C10_grade_total.1 101 (by norm_num), C10_grade_total.2.1 (-1) (by norm_num)⟩

/-- The store of the C1 failing input: one student S1, one subject Math,
one result row (S1, Math, 50). -/
def c1_store : Store :=
  run empty_store
    [Op.addStudent "S1" "Ann" "10th Grade", Op.addSubject "Math" 100,
     Op.upsertMark "S1" "Math" 50]

/-- C1: evaluation of the code at the failing input.  `delete_student`
returns `True` and removes the student row, but because the code never
issues `PRAGMA foreign_keys = ON` the declared cascade does not run: the
result row (S1, Math, 50) survives and `get_student_results` still returns
it, where the claim promises the empty map. -/
theorem C1_delete_student_no_cascade :
    (delete_student c1_store "S1").2 = true ∧
    (delete_student c1_store "S1").1.students = [] ∧
    (delete_student c1_store "S1").1.results = [⟨"S1", "Math", 50⟩] ∧
    get_student_results (delete_student c1_store "S1").1 "S1" =
      [("Math", 50)] := by
  refine ⟨rfl, ?_, ?_, ?_⟩ <;> decide

/-- C2: evaluation of the code at the failing input.  On an empty database,
`save_marks("ghost", "Phantom", 10)` succeeds and stores a result row whose
student and subject do not exist: foreign keys are declared in the schema
but never enforced at runtime, so referential integrity is not an
invariant. -/
theorem C2_dangling_result_row :
    (save_marks empty_store "ghost" "Phantom" 10).2 = true ∧
    (save_marks empty_store "ghost" "Phantom" 10).1.results =
      [⟨"ghost", "Phantom", 10⟩] ∧
    (save_marks empty_store "ghost" "Phantom" 10).1.students = [] ∧
    (save_marks empty_store "ghost" "Phantom" 10).1.subjects = [] := by
  refine ⟨rfl, ?_, rfl, rfl⟩
  decide

theorem length_filter_and_le {α : Type} (p q : α → Bool) (l : List α) :
    (l.filter (fun a => p a && q a)).length ≤ (l.filter p).length := by
  induction l with
  | nil => simp
  | cons a t ih =>
    cases hp : p a <;> cases hq : q a <;> simp [hp, hq] <;> omega

theorem filter_pair_save (s : Store) (sid subj : String) (m : Int) :
    ((save_marks s sid subj m).1.results.filter
      (fun r => r.student_id == sid && r.subject_name == subj)) =
      [⟨sid, subj, m⟩] := by
  simp [save_marks, List.filter_append, List.filter_filter, Bool.and_comm]

theorem at_most_one_preserved (s : Store) (op : Op)
    (h : at_most_one_per_pair s) : at_most_one_per_pair (applyOp s op) := by
  intro sid subj
  cases op with
  | addStudent id name cls =>
    have hr : (applyOp s (Op.addStudent id name cls)).results = s.results := by
      simp only [applyOp, add_student]
      split <;> rfl
    rw [hr]
    exact h sid subj
  | deleteStudent id => exact h sid subj
  | clearStudents => simp [applyOp, clear_all_students]
  | addSubject nm mm =>
    have hr : (applyOp s (Op.addSubject nm mm)).results = s.results := by
      simp only [applyOp, add_subject]
      split <;> rfl
    rw [hr]
    exact h sid subj
  | deleteSubject nm => exact h sid subj
  | clearSubjects => simp [applyOp, clear_all_subjects]
  | upsertMark sid0 subj0 m =>
    show (((save_marks s sid0 subj0 m).1.results).filter
      (fun r => r.student_id == sid && r.subject_name == subj)).length ≤ 1
    unfold save_marks
    rw [List.filter_append, List.filter_filter, List.length_append]
    by_cases hmatch : sid0 = sid ∧ subj0 = subj
    · obtain ⟨rfl, rfl⟩ := hmatch
      simp
    · have hnew : ((⟨sid0, subj0, m⟩ : ResultRow).student_id == sid &&
          (⟨sid0, subj0, m⟩ : ResultRow).subject_name == subj) = false := by
        simp only [Bool.and_eq_false_iff, beq_eq_false_iff_ne]
        tauto
      have h2 := le_trans
        (length_filter_and_le
          (fun r => r.student_id == sid && r.subject_name == subj)
          (fun r => !(r.student_id == sid0 && r.subject_name == subj0))
          s.results)
        (h sid subj)
      simp only [List.filter, hnew]
      simpa using h2

theorem at_most_one_empty : at_most_one_per_pair empty_store := by
  intro sid subj
  simp [empty_store]

theorem run_preserves_at_most_one (ops : List Op) (st : Store)
    (h : at_most_one_per_pair st) : at_most_one_per_pair (run st ops) := by
  induction ops generalizing st with
  | nil => exact h
  | cons op t ih => exact ih _ (at_most_one_preserved st op h)

/-- C7: `save_marks` is keyed on (student_id, subject_name): two successive
upserts of the same pair leave exactly one result row for the pair, holding
the second marks value, and at most one result per pair ever exists in any
store reachable from a fresh database through the public mutators (the
UNIQUE constraint together with `INSERT OR REPLACE`). -/
theorem C7_upsert_mark_unique (s : Store) (sid subj : String)
    (m1 m2 : Int) (ops : List Op) :
    ((save_marks (save_marks s sid subj m1).1 sid subj m2).1.results.filter
        (fun r => r.student_id == sid && r.subject_name == subj)) =
      [⟨sid, subj, m2⟩] ∧
    at_most_one_per_pair (run empty_store ops) := by
  constructor
  · exact filter_pair_save _ sid subj m2
  · exact run_preserves_at_most_one ops empty_store at_most_one_empty

/-- C8: adding a student with a fresh id succeeds, the student listing then
holds exactly one entry with that id (carrying the given name and class),
and a second add with the same id returns false and leaves the stored
student list untouched. -/
theorem C8_add_student_spec (s : Store) (id name cls : String)
    (hfresh : ∀ st ∈ s.students, st.id ≠ id) :
    (add_student s id name cls).2 = true ∧
    (get_all_students (add_student s id name cls).1).filter
        (fun st => st.id == id) = [⟨id, name, cls⟩] ∧
    ∀ name2 cls2 : String,
      (add_student (add_student s id name cls).1 id name2 cls2).2 = false ∧
      (add_student (add_student s id name cls).1 id name2 cls2).1.students =
        (add_student s id name cls).1.students := by
  have hany : s.students.any (fun st => st.id == id) = false := by
    rw [List.any_eq_false]
    intro st hst
    simp [hfresh st hst]
  have h1 : add_student s id name cls =
      ({ s with students := s.students ++ [⟨id, name, cls⟩] }, true) := by
    unfold add_student
    rw [hany]
    rfl
  refine ⟨by rw [h1], ?_, ?_⟩
  · rw [h1]
    have hperm := (List.perm_insertionSort studentLe
      (s.students ++ [⟨id, name, cls⟩])).filter (fun st => st.id == id)
    rw [List.filter_append] at hperm
    have hnil : s.students.filter (fun st => st.id == id) = [] := by
      rw [List.filter_eq_nil_iff]
      intro st hst
      simp [hfresh st hst]
    rw [hnil] at hperm
    simp only [List.nil_append, List.filter] at hperm
    rw [show ((⟨id, name, cls⟩ : Student).id == id) = true by simp] at hperm
    exact (hperm.trans (by simp)).eq_singleton
  · intro name2 cls2
    have hany2 : (s.students ++ [(⟨id, name, cls⟩ : Student)]).any
        (fun st => st.id == id) = true := by
      rw [List.any_append]
      simp
    constructor
    · rw [h1]
      unfold add_student
      simp [hany2]
    · rw [h1]
      unfold add_student
      simp [hany2]

/-- Witness for C8 on an empty store with student (S9, Zed, 9th). -/
theorem C8_add_student_spec_witness :
    (add_student empty_store "S9" "Zed" "9th").2 = true ∧
    (get_all_students (add_student empty_store "S9" "Zed" "9th").1).filter
        (fun st => st.id == "S9") = [⟨"S9", "Zed", "9th"⟩] := by
  have h := C8_add_student_spec empty_store "S9" "Zed" "9th"
    (by simp [empty_store])
  exact ⟨h.1, h.2.1⟩

theorem truthiness_round1 (v : ℚ) : (if v = 0 then 0 else round1 v) = round1 v := by
  split_ifs with h
  · rw [h, round1_zero]
  · rfl

/-- A small populated store shared by several witnesses: students S1 and
S2, subject Math with max 100, marks 85 and 40. -/
def demo_store : Store :=
  run empty_store
    [Op.addStudent "S1" "Ann" "10th", Op.addStudent "S2" "Bob" "10th",
     Op.addSubject "Math" 100,
     Op.upsertMark "S1" "Math" 85, Op.upsertMark "S2" "Math" 40]

/-- C6: dashboard statistics average the raw marks of all result rows
(1-decimal rounded) and take the pass rate as 100 times the share of rows
whose raw mark is at least 60 (1-decimal rounded), both 0 when there are no
result rows; counts of students and subjects are plain lengths. -/
theorem C6_dashboard_stats_spec (s : Store) :
    (s.results = [] → (get_dashboard_stats s).avg_marks = 0 ∧
      (get_dashboard_stats s).pass_rate = 0) ∧
    (s.results ≠ [] →
      (get_dashboard_stats s).avg_marks =
        round1 (((s.results.map (fun r => r.marks)).sum : ℚ) /
          ((s.results.map (fun r => r.marks)).length : ℚ)) ∧
      (get_dashboard_stats s).pass_rate =
        round1 (100 *
          (((s.results.map (fun r => r.marks)).countP
            (fun m => decide (60 ≤ m))) : ℚ) /
          ((s.results.map (fun r => r.marks)).length : ℚ))) ∧
    (get_dashboard_stats s).total_students = s.students.length ∧
    (get_dashboard_stats s).total_subjects = s.subjects.length := by
  refine ⟨fun hres => ?_, fun hres => ?_, rfl, rfl⟩
  · simp [get_dashboard_stats, hres]
  · have hn : s.results.length ≠ 0 := fun h => hres (List.length_eq_zero.mp h)
    constructor
    · simp only [get_dashboard_stats, if_neg hn, truthiness_round1,
        List.length_map]
    · simp only [get_dashboard_stats, if_neg hn, truthiness_round1,
        List.length_map, List.countP_map]
      rw [mul_comm]
      rfl

/-- Witness for C6 on the populated demo store. -/
theorem C6_dashboard_stats_spec_witness :
    (get_dashboard_stats demo_store).avg_marks =
      round1 (((demo_store.results.map (fun r => r.marks)).sum : ℚ) /
        ((demo_store.results.map (fun r => r.marks)).length : ℚ)) ∧
    (get_dashboard_stats demo_store).pass_rate =
      round1 (100 *
        (((demo_store.results.map (fun r => r.marks)).countP
          (fun m => decide (60 ≤ m))) : ℚ) /
        ((demo_store.results.map (fun r => r.marks)).length : ℚ)) :=
  (C6_dashboard_stats_spec demo_store).2.1 (by decide)

/-- Any joined row of a report comes from a stored result row of the
student and the stored subject its name resolves to. -/
theorem mem_report_rows {s : Store} {sid : String} {p : ResultRow × Subject}
    (hp : p ∈ report_rows s sid) :
    p.2 ∈ s.subjects ∧ lookup_subject s p.1.subject_name = some p.2 ∧
    p.1 ∈ student_rows s sid := by
  unfold report_rows at hp
  obtain ⟨r, hr, hmap⟩ := List.mem_filterMap.mp hp
  obtain ⟨sub, hlook, heq⟩ := Option.map_eq_some'.mp hmap
  subst heq
  exact ⟨List.mem_of_find?_eq_some hlook, hlook,
    (List.perm_insertionSort resultLe _).mem_iff.mp hr⟩

/-- C9 counterexample: `add_subject` happily stores a subject with
`max_marks = 0`; no minimum is checked anywhere in the storage layer. -/
theorem C9_add_subject_no_min_check :
    (add_subject empty_store "Weird" 0).2 = true ∧
    (add_subject empty_store "Weird" 0).1.subjects = [⟨"Weird", 0⟩] ∧
    ¬ (1 ≤ (⟨"Weird", (0 : Int)⟩ : Subject).max_marks) := by
  refine ⟨rfl, ?_, by decide⟩
  decide

/-- C9 amended: `add_subject` performs no validation of `max_marks` at all
(any integer, a fresh name, and the subject is stored), so nonzero
percentage denominators in `generate_student_report` hold only on stores
whose subjects all have `max_marks ≥ 1` (what the UI guarantees by
restricting input to 1..1000). -/
theorem C9_add_subject_unvalidated (s : Store) (nm : String) (mm : Int)
    (hfresh : ∀ sub ∈ s.subjects, sub.name ≠ nm) :
    ((add_subject s nm mm).2 = true ∧
     (add_subject s nm mm).1.subjects = s.subjects ++ [⟨nm, mm⟩]) ∧
    (∀ (sid : String) (rep : Report),
      (∀ sub ∈ s.subjects, 1 ≤ sub.max_marks) →
      generate_student_report s sid = some rep →
      ∀ e ∈ rep.results, 1 ≤ e.max_marks ∧ ((e.max_marks : ℚ) ≠ 0)) := by
  have hany : s.subjects.any (fun sub => sub.name == nm) = false := by
    rw [List.any_eq_false]
    intro sub hsub
    simp [hfresh sub hsub]
  constructor
  · unfold add_subject
    rw [hany]
    exact ⟨rfl, rfl⟩
  · intro sid rep hmax hrep e he
    unfold generate_student_report at hrep
    cases hfind : s.students.find? (fun st => st.id == sid) with
    | none => rw [hfind] at hrep; exact absurd hrep (by simp)
    | some st =>
      rw [hfind] at hrep
      have hres : rep.results =
          (report_rows s sid).map (fun p => mk_entry p.1 p.2) := by
        cases Option.some_inj.mp hrep
        rfl
      rw [hres] at he
      obtain ⟨p, hp, rfl⟩ := List.mem_map.mp he
      have hmem := (mem_report_rows hp).1
      have h1 : 1 ≤ p.2.max_marks := hmax p.2 hmem
      refine ⟨h1, ?_⟩
      have hz : p.2.max_marks ≠ 0 := by omega
      exact_mod_cast hz

theorem join_map_sums (l : List ResultRow) (g : ResultRow → Option Subject)
    (h : ∀ r ∈ l, (g r).isSome) :
    (((l.filterMap (fun r => (g r).map (fun sub => (r, sub)))).map
       (fun p => p.1.marks)).sum = (l.map (fun r => r.marks)).sum) ∧
    (((l.filterMap (fun r => (g r).map (fun sub => (r, sub)))).map
       (fun p => p.2.max_marks)).sum =
      (l.map (fun r => (g r).elim 0 Subject.max_marks)).sum) := by
  induction l with
  | nil => simp
  | cons a t ih =>
    obtain ⟨sub, hsub⟩ :=
      Option.isSome_iff_exists.mp (h a (List.mem_cons_self a t))
    have ht := ih (fun r hr => h r (List.mem_cons_of_mem a hr))
    simp [hsub, ht.1, ht.2]

theorem join_fst_sublist (l : List ResultRow) (g : ResultRow → Option Subject) :
    ((l.filterMap (fun r => (g r).map (fun sub => (r, sub)))).map
      Prod.fst).Sublist l := by
  induction l with
  | nil => simp
  | cons a t ih =>
    cases hg : g a with
    | none =>
      simp only [List.filterMap_cons, hg, Option.map_none']
      exact ih.cons a
    | some sub =>
      simp only [List.filterMap_cons, hg, Option.map_some', List.map_cons]
      exact ih.cons₂ a

/-- The unrounded overall percentage of a report, as computed in
`generate_student_report`. -/
def overall_raw (s : Store) (sid : String) : ℚ :=
  if (((report_rows s sid).map (fun p => p.2.max_marks)).sum : Int) > 0 then
    (((((report_rows s sid).map (fun p => p.1.marks)).sum : Int) : ℚ) /
      (((((report_rows s sid).map (fun p => p.2.max_marks)).sum : Int)) : ℚ)) *
      100
  else 0

theorem generate_report_some (s : Store) (sid : String) (st : Student)
    (hfind : s.students.find? (fun st0 => st0.id == sid) = some st) :
    generate_student_report s sid = some
      { student := st
        results := (report_rows s sid).map (fun p => mk_entry p.1 p.2)
        summary :=
          { total_marks := ((report_rows s sid).map (fun p => p.1.marks)).sum
            total_max_marks :=
              ((report_rows s sid).map (fun p => p.2.max_marks)).sum
            overall_percentage := round1 (overall_raw s sid)
            overall_grade := get_grade (overall_raw s sid) } } := by
  unfold generate_student_report
  rw [hfind]
  rfl

theorem report_rows_sums (s : Store) (sid : String)
    (h : ∀ r ∈ student_rows s sid,
      (lookup_subject s r.subject_name).isSome) :
    (((report_rows s sid).map (fun p => p.1.marks)).sum =
      (student_marks s sid).sum) ∧
    (((report_rows s sid).map (fun p => p.2.max_marks)).sum =
      ((student_rows s sid).map
        (fun r => (lookup_subject s r.subject_name).elim 0
          Subject.max_marks)).sum) := by
  have hsorted_all : ∀ r ∈ List.insertionSort resultLe (student_rows s sid),
      (lookup_subject s r.subject_name).isSome := fun r hr =>
    h r ((List.perm_insertionSort resultLe _).mem_iff.mp hr)
  have h1 := join_map_sums (List.insertionSort resultLe (student_rows s sid))
    (fun r => lookup_subject s r.subject_name) hsorted_all
  constructor
  · exact h1.1.trans
      (((List.perm_insertionSort resultLe _).map (fun r => r.marks)).sum_eq)
  · exact h1.2.trans (((List.perm_insertionSort resultLe _).map
      (fun r => (lookup_subject s r.subject_name).elim 0
        Subject.max_marks)).sum_eq)

/-- C4: a report is `none` exactly when the student id is absent; otherwise
each per-subject entry carries the 1-decimal-rounded percentage
marks/max_marks*100 and its grade, the summary totals the student's marks
and the max marks of their subjects, the overall percentage is the rounded
ratio of the totals (with grade from the unrounded ratio), a student with
no result rows gets the all-zero summary with grade F, and the entries are
ordered by subject name ascending. -/
theorem C4_generate_student_report_spec (s : Store) (sid : String)
    (hint : ∀ r ∈ student_rows s sid,
      (lookup_subject s r.subject_name).isSome) :
    (generate_student_report s sid = none ↔
      ∀ st ∈ s.students, st.id ≠ sid) ∧
    (∀ rep : Report, generate_student_report s sid = some rep →
      (∀ e ∈ rep.results,
        e.percentage = round1 (((e.marks : ℚ) / (e.max_marks : ℚ)) * 100) ∧
        e.grade = get_grade (((e.marks : ℚ) / (e.max_marks : ℚ)) * 100)) ∧
      rep.summary.total_marks = (student_marks s sid).sum ∧
      rep.summary.total_max_marks =
        ((student_rows s sid).map
          (fun r => (lookup_subject s r.subject_name).elim 0
            Subject.max_marks)).sum ∧
      (0 < rep.summary.total_max_marks →
        rep.summary.overall_percentage =
          round1 (((rep.summary.total_marks : ℚ) /
            (rep.summary.total_max_marks : ℚ)) * 100) ∧
        rep.summary.overall_grade =
          get_grade (((rep.summary.total_marks : ℚ) /
            (rep.summary.total_max_marks : ℚ)) * 100)) ∧
      (student_rows s sid = [] →
        rep.summary.total_marks = 0 ∧ rep.summary.total_max_marks = 0 ∧
        rep.summary.overall_percentage = 0 ∧
        rep.summary.overall_grade = 'F') ∧
      ((rep.results.map ReportEntry.subject).Sorted (· ≤ ·))) := by
  constructor
  · cases hfind : s.students.find? (fun st0 => st0.id == sid) with
    | none =>
      unfold generate_student_report
      rw [hfind]
      refine iff_of_true rfl ?_
      intro st hst
      have := List.find?_eq_none.mp hfind st hst
      simpa using this
    | some st =>
      have hpst : st.id = sid := by simpa using List.find?_some hfind
      have hmem : st ∈ s.students := List.mem_of_find?_eq_some hfind
      rw [generate_report_some s sid st hfind]
      exact iff_of_false (by simp) (fun hall => hall st hmem hpst)
  · intro rep hrep
    cases hfind : s.students.find? (fun st0 => st0.id == sid) with
    | none =>
      unfold generate_student_report at hrep
      rw [hfind] at hrep
      cases hrep
    | some st =>
      rw [generate_report_some s sid st hfind] at hrep
      cases Option.some_inj.mp hrep.symm
      dsimp only
      refine ⟨?_, ?_, ?_, ?_, ?_, ?_⟩
      · intro e he
        obtain ⟨p, hp, rfl⟩ := List.mem_map.mp he
        exact ⟨rfl, rfl⟩
      · exact (report_rows_sums s sid hint).1
      · exact (report_rows_sums s sid hint).2
      · intro hpos
        have hpos2 :
            (((report_rows s sid).map (fun p => p.2.max_marks)).sum : Int) >
              0 := hpos
        constructor
        · show round1 (overall_raw s sid) = _
          unfold overall_raw
          rw [if_pos hpos2]
        · show get_grade (overall_raw s sid) = _
          unfold overall_raw
          rw [if_pos hpos2]
      · intro hempty
        have hrows : report_rows s sid = [] := by
          unfold report_rows
          rw [hempty]
          rfl
        have hraw : overall_raw s sid = 0 := by
          unfold overall_raw
          rw [hrows]
          norm_num
        refine ⟨by rw [hrows]; rfl, by rw [hrows]; rfl, ?_, ?_⟩
        · show round1 (overall_raw s sid) = 0
          rw [hraw, round1_zero]
        · show get_grade (overall_raw s sid) = 'F'
          rw [hraw]
          exact get_grade_of_lt_60 (by norm_num)
      · show ((((report_rows s sid).map (fun p => mk_entry p.1 p.2)).map
          ReportEntry.subject)).Sorted (· ≤ ·)
        have hsub : (((report_rows s sid).map Prod.fst)).Sublist
            (List.insertionSort resultLe (student_rows s sid)) :=
          join_fst_sublist _ _
        have hs : ((report_rows s sid).map Prod.fst).Sorted resultLe :=
          List.Pairwise.sublist hsub
            (List.sorted_insertionSort resultLe (student_rows s sid))
        have hs2 : (((report_rows s sid).map Prod.fst).map
            (fun r => r.subject_name)).Sorted (· ≤ ·) :=
          List.pairwise_map.mpr hs
        simpa [List.map_map, Function.comp] using hs2

/-- Witness for C4 on the populated demo store and student S1. -/
theorem C4_generate_student_report_spec_witness :
    generate_student_report demo_store "S1" = none ↔
      ∀ st ∈ demo_store.students, st.id ≠ "S1" :=
  (C4_generate_student_report_spec demo_store "S1" (by decide)).1

/-- Witness for C9 amended, adding subject (Arts, 50) to an empty store. -/
theorem C9_add_subject_unvalidated_witness :
    (add_subject empty_store "Arts" 50).2 = true ∧
    (add_subject empty_store "Arts" 50).1.subjects =
      empty_store.subjects ++ [⟨"Arts", 50⟩] :=
  (C9_add_subject_unvalidated empty_store "Arts" 50 (by simp [empty_store])).1

theorem filterMap_if_eq_filter_map {α β : Type} (c : α → Bool) (g : α → β)
    (l : List α) :
    l.filterMap (fun a => if c a then none else some (g a)) =
      (l.filter (fun a => !(c a))).map g := by
  induction l with
  | nil => rfl
  | cons a t ih => cases hc : c a <;> simp [List.filterMap_cons, hc, ih]

theorem isEmpty_of_map {α β : Type} (f : α → β) (l : List α) :
    (l.map f).isEmpty = l.isEmpty := by
  cases l <;> rfl

theorem find?_eq_head_of_filter {α : Type} (p : α → Bool) (l : List α) :
    l.find? p = (l.filter p).head? := by
  induction l with
  | nil => rfl
  | cons a t ih =>
    cases hc : p a with
    | false =>
      have hc2 : ¬ p a := by simp [hc]
      rw [List.find?_cons_of_neg _ hc2, List.filter_cons_of_neg hc2, ih]
    | true =>
      rw [List.find?_cons_of_pos _ hc, List.filter_cons_of_pos hc]
      rfl

theorem perm_eq_of_length_le_one {α : Type} {l₁ l₂ : List α}
    (h : l₁.Perm l₂) (hl : l₁.length ≤ 1) : l₁ = l₂ := by
  match l₁, hl with
  | [], _ => exact h.nil_eq
  | [a], _ => exact (h.symm.eq_singleton).symm
  | a :: b :: t, hl => simp at hl

theorem find?_eq_of_perm_unique {α : Type} (p : α → Bool) {l₁ l₂ : List α}
    (hp : l₁.Perm l₂) (hu : (l₁.filter p).length ≤ 1) :
    l₁.find? p = l₂.find? p := by
  rw [find?_eq_head_of_filter, find?_eq_head_of_filter,
    perm_eq_of_length_le_one (hp.filter p) hu]

theorem filter_name_len_le (l : List Subject)
    (hn : (l.map Subject.name).Nodup) (n : String) :
    (l.filter (fun sub => sub.name == n)).length ≤ 1 := by
  induction l with
  | nil => simp
  | cons a t ih =>
    simp only [List.map_cons, List.nodup_cons] at hn
    by_cases ha : a.name = n
    · have hnil : t.filter (fun sub => sub.name == n) = [] := by
        rw [List.filter_eq_nil_iff]
        intro sub hsub hbeq
        have hname : sub.name = n := by simpa using hbeq
        refine hn.1 ?_
        rw [ha, ← hname]
        exact List.mem_map_of_mem Subject.name hsub
      simp [List.filter_cons, ha, hnil]
    · simpa [List.filter_cons, ha] using ih hn.2

theorem subject_max_eq (s : Store)
    (hn : (s.subjects.map Subject.name).Nodup) (n : String) :
    subject_max s n = (lookup_subject s n).elim 0 Subject.max_marks := by
  have hu : ((List.insertionSort subjectLe s.subjects).filter
      (fun sub => sub.name == n)).length ≤ 1 := by
    rw [((List.perm_insertionSort subjectLe s.subjects).filter
      (fun sub => sub.name == n)).length_eq]
    exact filter_name_len_le s.subjects hn n
  have hfind : (List.insertionSort subjectLe s.subjects).find?
      (fun sub => sub.name == n) =
      s.subjects.find? (fun sub => sub.name == n) :=
    find?_eq_of_perm_unique (fun sub => sub.name == n)
      (List.perm_insertionSort subjectLe s.subjects) hu
  unfold subject_max lookup_subject get_all_subjects
  rw [hfind]
  cases s.subjects.find? (fun sub => sub.name == n) <;> rfl

/-- C5: the cohort performance table holds one entry per student with at
least one result row (id-multisets agree; students with no results are
skipped), and each entry totals that student's raw marks, totals the
max marks of the subjects they have a mark in, and carries
percentage = totalMarks/totalMaxMarks*100 (when the denominator is
positive), grade = grade(percentage) and status PASS exactly when the
percentage is at least 60.  The `at_most_one_per_pair` hypothesis (the
UNIQUE constraint, proved invariant above) restricts the statement to the
stores on which the association-list model of the Python results dict is
faithful; unique subject names (also a UNIQUE constraint) make the sorted
subject lookup of `app2.py` agree with the stored table. -/
theorem C5_cohort_performance_spec (s : Store)
    (hpair : at_most_one_per_pair s)
    (hn : (s.subjects.map Subject.name).Nodup) :
    ((student_performance s).map (fun e => e.id)).Perm
      ((s.students.filter
        (fun st => !(student_rows s st.id).isEmpty)).map Student.id) ∧
    (∀ e ∈ student_performance s,
      student_rows s e.id ≠ [] ∧
      e.total_marks = (student_marks s e.id).sum ∧
      e.total_max_marks =
        ((student_rows s e.id).map
          (fun r => (lookup_subject s r.subject_name).elim 0
            Subject.max_marks)).sum ∧
      (0 < e.total_max_marks →
        e.percentage =
          ((e.total_marks : ℚ) / (e.total_max_marks : ℚ)) * 100) ∧
      e.grade = get_grade e.percentage ∧
      e.status = (if e.percentage ≥ 60 then "PASS" else "FAIL")) := by
  have bdec : ∀ b : Bool, decide (b = true) = b := fun b => by
    cases b <;> rfl
  have heq : student_performance s =
      ((get_all_students s).filter
        (fun st => !(student_rows s st.id).isEmpty)).map (perf_entry_of s) := by
    unfold student_performance
    rw [filterMap_if_eq_filter_map]
    congr 1
    apply List.filter_congr
    intro st _
    simp [bdec, isEmpty_of_map, get_student_results, student_rows]
  constructor
  · rw [heq, List.map_map]
    have h2 : ((get_all_students s).filter
        (fun st => !(student_rows s st.id).isEmpty)).map
          ((fun e => e.id) ∘ perf_entry_of s) =
        ((get_all_students s).filter
          (fun st => !(student_rows s st.id).isEmpty)).map Student.id :=
      List.map_congr_left (fun st _ => rfl)
    rw [h2]
    exact ((List.perm_insertionSort studentLe s.students).filter
      (fun st => !(student_rows s st.id).isEmpty)).map Student.id
  · intro e he
    rw [heq] at he
    obtain ⟨st, hst, rfl⟩ := List.mem_map.mp he
    have hcond : (!(student_rows s st.id).isEmpty) = true :=
      (List.mem_filter.mp hst).2
    have hid : (perf_entry_of s st).id = st.id := rfl
    have hne : student_rows s st.id ≠ [] := by
      intro h0
      rw [h0] at hcond
      simp at hcond
    refine ⟨by rw [hid]; exact hne, ?_, ?_, ?_, rfl, rfl⟩
    · show ((get_student_results s st.id).map (fun p => p.2)).sum = _
      rw [hid]
      unfold get_student_results student_marks
      rw [List.map_map]
      rfl
    · show ((get_student_results s st.id).map
        (fun p => subject_max s p.1)).sum = _
      rw [hid]
      unfold get_student_results
      rw [List.map_map]
      exact congrArg List.sum
        (List.map_congr_left (fun r _ => subject_max_eq s hn r.subject_name))
    · intro hpos
      have hpos2 : ((get_student_results s st.id).map
          (fun p => subject_max s p.1)).sum > (0 : Int) := hpos
      show (if ((get_student_results s st.id).map
          (fun p => subject_max s p.1)).sum > (0 : Int) then
          ((((get_student_results s st.id).map
            (fun p => p.2)).sum : Int) : ℚ) /
            ((((get_student_results s st.id).map
              (fun p => subject_max s p.1)).sum : Int) : ℚ) * 100
        else 0) = _
      rw [if_pos hpos2]
      rfl

/-- Witness for C5 on the populated demo store. -/
theorem C5_cohort_performance_spec_witness :
    ((student_performance demo_store).map (fun e => e.id)).Perm
      ((demo_store.students.filter
        (fun st => !(student_rows demo_store st.id).isEmpty)).map
        Student.id) :=
  (C5_cohort_performance_spec demo_store
    (run_preserves_at_most_one _ _ at_most_one_empty) (by decide)).1
